import Mathlib

/-!
Shallow embedding of the shell-theme generator in
gradience/backend/theming/shell.py (class ShellTheme), together with
theorems checking the specification's claims about it.

Strings are modelled as lists of characters.  The mutable state touched by
the pipeline (the filesystem, the settings store, launched subprocesses and
the log) is threaded explicitly through a World record.  A Python exception
is modelled as an Except error carrying, besides the exception value, the
World at the moment the exception was raised.
-/

abbrev Str := List Char

/-- The opening curly brace character, written \x7b. -/
def openBr : Char := Char.ofNat 123

/-- The closing curly brace character, written \x7d. -/
def closeBr : Char := Char.ofNat 125

/-- Association-list lookup keyed by Str; models Python dict lookup. -/
def lookupA {β : Type} : List (Str × β) → Str → Option β
  | [], _ => none
  | p :: rest, k => if p.1 = k then some p.2 else lookupA rest k

/-- Boolean test that the first list is a prefix of the second. -/
def isPre : Str → Str → Bool
  | [], _ => true
  | _ :: _, [] => false
  | a :: as, b :: bs => a == b && isPre as bs

/-- Fuel-indexed engine for Python str.replace: replaces every
non-overlapping occurrence of pat, scanning left to right and continuing
after each replacement.  Any fuel at least the length of the scanned string
gives the same result (proved below), so the wrapper replaceAll passes the
string's length. -/
def replaceAllF (pat rep : Str) : Nat → Str → Str
  | _, [] => []
  | 0, c :: rest => c :: rest
  | n + 1, c :: rest =>
    if pat.length ≠ 0 ∧ isPre pat (c :: rest) = true then
      rep ++ replaceAllF pat rep n (List.drop (pat.length - 1) rest)
    else
      c :: replaceAllF pat rep n rest

/-- Python s.replace(pat, rep) for a nonempty pattern pat. -/
def replaceAll (pat rep s : Str) : Str := replaceAllF pat rep s.length s

/-- First occurrence of the two-character run of closing braces: returns
the characters strictly before it and the characters strictly after it.
This is the non-greedy tail of the placeholder regex used by
ShellTheme.insert_variables. -/
def splitAtClose : Str → Option (Str × Str)
  | [] => none
  | c :: rest =>
    if c = closeBr ∧ rest.head? = some closeBr then some ([], rest.tail)
    else (splitAtClose rest).map (fun p => (c :: p.1, p.2))

/-- Leftmost match of the placeholder regex (two opening braces, a
non-greedy group, two closing braces) used via re.search in
ShellTheme.insert_variables.  Returns (text before the match, group 1,
text after the match); none when the line has no match. -/
def findPlaceholder : Str → Option (Str × Str × Str)
  | [] => none
  | c :: rest =>
    if c = openBr ∧ rest.head? = some openBr then
      match splitAtClose rest.tail with
      | some p => some ([], p.1, p.2)
      | none => none
    else
      (findPlaceholder rest).map (fun t => (c :: t.1, t.2.1, t.2.2))

/-- The preset's variable mapping (a Python dict from str to str). -/
abbrev Vars := List (Str × Str)

/-- Python exceptions the shell-theming code can raise.  The constructor
themeApplicationError is modelled from the spec: the spec's failure
taxonomy names a ThemeApplicationError umbrella exception, but no such
class exists anywhere in the source; the constructor exists only so that
its absence from every error the code actually raises can be stated. -/
inductive Err where
  | keyError (key : Str)
  | ioError (path : Str)
  | gError (msg : Str)
  | exception (msg : Str)
  | nameError (name : Str)
  | valueError (msg : Str)
  | themeApplicationError (cause : Err)
deriving DecidableEq

/-- The state visible to the pipeline: files (an association list whose
first binding for a path wins), existing directories, the ordered trace of
settings-store writes, the launched subprocesses, and the log. -/
structure World where
  files : List (Str × Str)
  dirs : List Str
  settingsWrites : List (Str × Str)
  procLaunches : List (List Str)
  log : List Str
deriving DecidableEq

/-- Outcomes outside the program's control: whether a directory creation
raises GLib.GError and whether launching the sassc subprocess raises
GLib.GError. -/
structure Env where
  mkdirFails : Bool
  launchFails : Bool
deriving DecidableEq

def lookupFile (w : World) (p : Str) : Option Str := lookupA w.files p

def writeFile (w : World) (p c : Str) : World := { w with files := (p, c) :: w.files }

def addLog (w : World) (m : Str) : World := { w with log := w.log ++ [m] }

/-- Gio.Settings.set_string on the user-theme schema. -/
def set_string (w : World) (k v : Str) : World :=
  { w with settingsWrites := w.settingsWrites ++ [(k, v)] }

/-- The value a settings key holds after the recorded writes (last write
wins). -/
def currentSetting (w : World) (k : Str) : Option Str := lookupA w.settingsWrites.reverse k

/-- Modelled from the spec: gradience.backend.constants.datadir, the
install-time data directory; the constants module is not under src, so a
fixed absolute path stands in for it.  No claim depends on its value. -/
def datadir : Str := "/usr/share".toList

/-- Modelled from the spec: the per-user home directory returned by
GLib.get_home_dir().  No claim depends on its value. -/
def homedir : Str := "/home/user".toList

/-- os.path.join for the shapes appearing in the source (the right operand
is never an absolute path there). -/
def osJoin (a b : Str) : Str :=
  if a = [] then b
  else if a.getLast? = some '/' then a ++ b
  else a ++ '/' :: b

/-- The per-instance configuration fixed by ShellTheme.__init__: the
resolved version target (None when auto-detection recognised nothing). -/
structure ShellCfg where
  version_target : Option Int
deriving DecidableEq

/-- Python str(...) on the version target; str(None) is "None". -/
def pyStr : Option Int → Str
  | none => "None".toList
  | some n => (toString n).toList

def templates_dir (c : ShellCfg) : Str :=
  osJoin (osJoin (osJoin (osJoin datadir ("gradience".toList)) ("shell".toList)) ("templates".toList)) (pyStr c.version_target)

def source_dir (c : ShellCfg) : Str :=
  osJoin (osJoin (osJoin datadir ("gradience".toList)) ("shell".toList)) (pyStr c.version_target)

def output_dir : Str :=
  osJoin (osJoin (osJoin homedir (".local/share/themes".toList)) ("gradience-shell".toList)) ("gnome-shell".toList)

def main_template (c : ShellCfg) : Str := osJoin (templates_dir c) ("gnome-shell.template".toList)

def colors_template (c : ShellCfg) : Str := osJoin (templates_dir c) ("colors.template".toList)

def switches_template (c : ShellCfg) : Str := osJoin (templates_dir c) ("switches.template".toList)

def main_source (c : ShellCfg) : Str := osJoin (source_dir c) ("gnome-shell.scss".toList)

def colors_source (c : ShellCfg) : Str :=
  osJoin (osJoin (source_dir c) ("gnome-shell-sass".toList)) ("_colors.scss".toList)

def switches_source (c : ShellCfg) : Str :=
  osJoin (osJoin (osJoin (source_dir c) ("gnome-shell-sass".toList)) ("widgets".toList)) ("_switches.scss".toList)

def switch_on_source (c : ShellCfg) : Str := osJoin (source_dir c) ("toggle-on.svg".toList)

def switch_off_source (c : ShellCfg) : Str := osJoin (source_dir c) ("toggle-off.svg".toList)

def assets_output : Str := osJoin output_dir ("assets".toList)

/-- The supported GNOME Shell versions (class attribute shell_versions). -/
def shell_versions : List Int := [42, 43]

/-- Value of a nonempty all-digit numeral. -/
def digitsToNat (s : Str) : Option Nat :=
  if s ≠ [] ∧ s.all Char.isDigit then
    some (s.foldl (fun a c => a * 10 + (c.toNat - 48)) 0)
  else none

/-- Python int(...) on a short version-string slice: strips surrounding
spaces, allows an optional sign, then requires decimal digits. -/
def pyIntOpt (s : Str) : Option Int :=
  let t := ((s.dropWhile (fun c => c == ' ')).reverse.dropWhile (fun c => c == ' ')).reverse
  match t with
  | c :: rest =>
    if c = '-' then (digitsToNat rest).map (fun n => -(n : Int))
    else if c = '+' then (digitsToNat rest).map (fun n => (n : Int))
    else (digitsToNat t).map (fun n => (n : Int))
  | [] => none

/-- ShellTheme.detect_shell_version, with the running session's version
string as an explicit input (the source obtains it from
get_shell_version(), a helper outside src).  A version starting with the
digit 4 is truncated to two characters, parsed, and stored only when it is
a supported version.  On a version starting with the digit 3 the source
raises Exception with an f-string that names shell_version, a variable not
in scope in this method (the local is shell_ver), so evaluating the
f-string raises NameError first; that NameError is what escapes. -/
def detect_shell_version (detected : Str) : Except Err (Option Int) :=
  if detected.head? = some '4' then
    match pyIntOpt (detected.take 2) with
    | some n => .ok (if n ∈ shell_versions then some n else none)
    | none => .error (.valueError ("invalid literal for int".toList))
  else if detected.head? = some '3' then
    .error (.nameError ("shell_version".toList))
  else .ok none

/-- ShellTheme.__init__ up to version resolution; the derived paths are the
path functions above, applied to the resulting configuration.  Python's
test `if not shell_version:` treats an explicit 0 like an omitted
argument, so 0 routes to auto-detection. -/
def initShellTheme (shell_version : Option Int) (detected : Str) : Except Err ShellCfg :=
  match shell_version with
  | none =>
    match detect_shell_version detected with
    | .error e => .error e
    | .ok vt => .ok ⟨vt⟩
  | some v =>
    if v = 0 then
      match detect_shell_version detected with
      | .error e => .error e
      | .ok vt => .ok ⟨vt⟩
    else if v ∈ shell_versions then .ok ⟨some v⟩
    else
      .error (.exception (("GNOME Shell version ".toList) ++ (toString v).toList ++ (" not in range [42, 43]".toList)))

def cfgOf (v : Int) : ShellCfg := ⟨some v⟩

/-- The body of the template loop in ShellTheme.insert_variables for one
line: search for a placeholder; on a match, look the matched name up in
the active mapping (a missing key is Python's KeyError) and replace every
occurrence of that placeholder in the line; without a match, keep the line
unchanged. -/
def renderLine (vars : Vars) (line : Str) : Except Err Str :=
  match findPlaceholder line with
  | none => .ok line
  | some t =>
    match lookupA vars t.2.1 with
    | none => .error (.keyError t.2.1)
    | some v => .ok (replaceAll (openBr :: openBr :: (t.2.1 ++ [closeBr, closeBr])) v line)

/-- The whole template loop: concatenate the processed lines, stopping at
the first error. -/
def renderAll (vars : Vars) : List Str → Except Err Str
  | [] => .ok []
  | l :: ls =>
    match renderLine vars l with
    | .error e => .error e
    | .ok r =>
      match renderAll vars ls with
      | .error e => .error e
      | .ok rest => .ok (r ++ rest)

/-- Python text-file iteration: split after every newline, keeping the
newline at the end of each line. -/
def splitFL : Str → List Str
  | [] => []
  | c :: rest =>
    if c = '\n' then [c] :: splitFL rest
    else
      match splitFL rest with
      | [] => [[c]]
      | l :: ls => (c :: l) :: ls

def accentKey : Str := "accent_bg_color".toList

def nameKey : Str := "name".toList

def themeName : Str := "gradience-shell".toList

def mkdirFailMsg : Str := "Unable to create directories.".toList

def sassFailMsg : Str := "Failed to compile SCSS source files using external sassc program.".toList

def applyFailMsg : Str := "Failed to apply a theme for GNOME Shell.".toList

def fillDefault : Str := "fill:#3584e4".toList

/-- ShellTheme.insert_variables: read the colors template, render every
line, and only after the whole loop finished write the accumulated text to
the colors source partial.  An exception during the loop therefore leaves
the World exactly as it was. -/
def insert_variables (cfg : ShellCfg) (vars : Vars) (w : World) : Except (Err × World) World :=
  match lookupFile w (colors_template cfg) with
  | none => .error (.ioError (colors_template cfg), w)
  | some content =>
    match renderAll vars (splitFL content) with
    | .error e => .error (e, w)
    | .ok out => .ok (writeFile w (colors_source cfg) out)

/-- The make-directories-if-missing block that appears twice in the source
(once for the output directory, once for the assets directory): an
existing directory is left alone; a creation failure is logged and the
GLib error is re-raised. -/
def ensureDir (env : Env) (w : World) (d : Str) : Except (Err × World) World :=
  if d ∈ w.dirs then .ok w
  else if env.mkdirFails then
    .error (.gError ("make_directory_with_parents".toList), addLog w mkdirFailMsg)
  else .ok { w with dirs := d :: w.dirs }

/-- ShellTheme.compile_sass: launch the external sassc subprocess and do
not wait for it; a GLib error while launching is logged and swallowed,
never re-raised. -/
def compile_sass (env : Env) (sass_path output_path : Str) (w : World) : World :=
  if env.launchFails then addLog w sassFailMsg
  else { w with procLaunches := w.procLaunches ++ [["/usr/bin/sassc".toList, sass_path, output_path]] }

/-- The in-memory SVG transformation of ShellTheme.recolor_assets: replace
the literal default fill string by fill: followed by the accent colour. -/
def recolorSvg (accent_bg svg : Str) : Str :=
  replaceAll fillDefault (("fill:".toList) ++ accent_bg) svg

/-- ShellTheme.recolor_assets: look up the accent colour (first statement),
copy the switches template over the switches source, recolour the
toggle-on SVG in place, ensure the assets directory exists, then copy the
recoloured toggle-on and the untouched toggle-off into the assets
directory. -/
def recolor_assets (cfg : ShellCfg) (env : Env) (vars : Vars) (w : World) : Except (Err × World) World :=
  match lookupA vars accentKey with
  | none => .error (.keyError accentKey, w)
  | some accent_bg =>
    match lookupFile w (switches_template cfg) with
    | none => .error (.ioError (switches_template cfg), w)
    | some sw =>
      let w1 := writeFile w (switches_source cfg) sw
      match lookupFile w1 (switch_on_source cfg) with
      | none => .error (.ioError (switch_on_source cfg), w1)
      | some svg =>
        let w2 := writeFile w1 (switch_on_source cfg) (recolorSvg accent_bg svg)
        match ensureDir env w2 assets_output with
        | .error ew => .error ew
        | .ok w3 =>
          match lookupFile w3 (switch_on_source cfg) with
          | none => .error (.ioError (switch_on_source cfg), w3)
          | some svg2 =>
            let w4 := writeFile w3 (osJoin assets_output ("toggle-on.svg".toList)) svg2
            match lookupFile w4 (switch_off_source cfg) with
            | none => .error (.ioError (switch_off_source cfg), w4)
            | some off =>
              .ok (writeFile w4 (osJoin assets_output ("toggle-off.svg".toList)) off)

/-- ShellTheme.set_shell_theme: write the empty string to the theme-name
key, then write the fixed theme identifier. -/
def set_shell_theme (w : World) : World :=
  set_string (set_string w nameKey []) nameKey themeName

/-- ShellTheme.create_theme: capture the preset variables, render the
colors template, ensure the output directory, launch the SCSS compilation,
recolour the assets, and activate the theme, in that order. -/
def create_theme (cfg : ShellCfg) (env : Env) (preset_variables : Vars) (w : World) : Except (Err × World) World :=
  match insert_variables cfg preset_variables w with
  | .error ew => .error ew
  | .ok w1 =>
    match ensureDir env w1 output_dir with
    | .error ew => .error ew
    | .ok w2 =>
      let w3 := compile_sass env (osJoin (source_dir cfg) ("gnome-shell.scss".toList)) (osJoin output_dir ("gnome-shell.css".toList)) w2
      match recolor_assets cfg env preset_variables w3 with
      | .error ew => .error ew
      | .ok w4 => .ok (set_shell_theme w4)

def isGError : Err → Bool
  | .gError _ => true
  | _ => false

def isThemeApplicationError : Err → Bool
  | .themeApplicationError _ => true
  | _ => false

/-- ShellTheme.apply_theme: run the pipeline; a GLib error is logged and
re-raised unchanged by the bare raise statement; every other exception
propagates uncaught. -/
def apply_theme (cfg : ShellCfg) (env : Env) (preset_variables : Vars) (w : World) : Except (Err × World) World :=
  match create_theme cfg env preset_variables w with
  | .error (e, w1) =>
    if isGError e then .error (e, addLog w1 applyFailMsg) else .error (e, w1)
  | .ok w1 => .ok w1

/-- The exception component of a pipeline outcome, when there is one. -/
def resultErr : Except (Err × World) World → Option Err
  | .error ew => some ew.1
  | .ok _ => none

/-- Path components: split a path at every separator. -/
def segs : Str → List Str
  | [] => [[]]
  | c :: rest =>
    if c = '/' then [] :: segs rest
    else
      match segs rest with
      | [] => [[c]]
      | s :: ss => (c :: s) :: ss

/-- Occurrence test: does pat occur as a contiguous run somewhere in s. -/
def containsPat (pat : Str) : Str → Bool
  | [] => isPre pat []
  | c :: rest => isPre pat (c :: rest) || containsPat pat rest

/-! ### Concrete fixtures used by witnesses and counterexamples -/

def wEmpty : World :=
  { files := [], dirs := [], settingsWrites := [], procLaunches := [], log := [] }

def wC2 : World :=
  { files := [(colors_template (cfgOf 42), "color: \x7b\x7bmissing_key\x7d\x7d;\n".toList)],
    dirs := [], settingsWrites := [], procLaunches := [], log := [] }

def wC3 : World :=
  { files := [(colors_template (cfgOf 42), [])],
    dirs := [], settingsWrites := [], procLaunches := [], log := [] }

def envC3 : Env := { mkdirFails := true, launchFails := false }

def wC3mid : World := addLog (writeFile wC3 (colors_source (cfgOf 42)) []) mkdirFailMsg

def varsC4 : Vars := [(accentKey, "#ff0000".toList)]

def wC4 : World :=
  { files := [(colors_template (cfgOf 42), "color: \x7b\x7baccent_bg_color\x7d\x7d;\n".toList),
      (switches_template (cfgOf 42), "switches".toList),
      (switch_on_source (cfgOf 42), "fill:#3584e4".toList),
      (switch_off_source (cfgOf 42), "off".toList)],
    dirs := [output_dir, assets_output], settingsWrites := [], procLaunches := [], log := [] }

/-! ### Helper lemmas about the replace engine -/

theorem replaceAllF_nil (pat rep : Str) (n : Nat) : replaceAllF pat rep n [] = [] := by
  cases n <;> rfl

theorem replaceAllF_irrel (pat rep : Str) :
    ∀ n m s, s.length ≤ n → s.length ≤ m → replaceAllF pat rep n s = replaceAllF pat rep m s := by
  intro n
  induction n with
  | zero =>
    intro m s hn _
    have hs : s = [] := List.eq_nil_of_length_eq_zero (Nat.le_zero.mp hn)
    subst hs
    simp [replaceAllF_nil]
  | succ n ih =>
    intro m s hn hm
    cases s with
    | nil => simp [replaceAllF_nil]
    | cons c rest =>
      cases m with
      | zero => simp at hm
      | succ m' =>
        simp only [replaceAllF]
        by_cases h : pat.length ≠ 0 ∧ isPre pat (c :: rest) = true
        · rw [if_pos h, if_pos h]
          congr 1
          apply ih
          · rw [List.length_drop]
            simp only [List.length_cons] at hn
            omega
          · rw [List.length_drop]
            simp only [List.length_cons] at hm
            omega
        · rw [if_neg h, if_neg h]
          congr 1
          apply ih
          · simp only [List.length_cons] at hn; omega
          · simp only [List.length_cons] at hm; omega

theorem replaceAll_nil (pat rep : Str) : replaceAll pat rep [] = [] := rfl

theorem replaceAll_cons_pos (pat rep : Str) (c : Char) (rest : Str)
    (h : pat.length ≠ 0 ∧ isPre pat (c :: rest) = true) :
    replaceAll pat rep (c :: rest) = rep ++ replaceAll pat rep (List.drop (pat.length - 1) rest) := by
  unfold replaceAll
  simp only [List.length_cons, replaceAllF, if_pos h]
  congr 1
  apply replaceAllF_irrel
  · rw [List.length_drop]; omega
  · exact le_refl _

theorem replaceAll_cons_neg (pat rep : Str) (c : Char) (rest : Str)
    (h : ¬ (pat.length ≠ 0 ∧ isPre pat (c :: rest) = true)) :
    replaceAll pat rep (c :: rest) = c :: replaceAll pat rep rest := by
  unfold replaceAll
  simp only [List.length_cons, replaceAllF, if_neg h]

theorem isPre_append_self : ∀ p q : Str, isPre p (p ++ q) = true := by
  intro p
  induction p with
  | nil => intro q; rfl
  | cons a as ih => intro q; simp [isPre, ih]

theorem replaceAll_skip (t rep : Str) :
    ∀ l q : Str, openBr ∉ l →
      replaceAll (openBr :: t) rep (l ++ q) = l ++ replaceAll (openBr :: t) rep q := by
  intro l
  induction l with
  | nil => intro q _; rfl
  | cons c l' ih =>
    intro q hmem
    have hc : c ≠ openBr := by
      intro hh; exact hmem (hh ▸ List.mem_cons_self c l')
    have hneg : ¬ ((openBr :: t).length ≠ 0 ∧ isPre (openBr :: t) (c :: (l' ++ q)) = true) := by
      rintro ⟨-, hp⟩
      simp only [isPre, Bool.and_eq_true, beq_iff_eq] at hp
      exact hc hp.1.symm
    rw [List.cons_append, replaceAll_cons_neg _ _ _ _ hneg,
      ih q (fun hh => hmem (List.mem_cons_of_mem _ hh))]
    rfl

theorem replaceAll_id_of_notMem (t rep : Str) (l : Str) (h : openBr ∉ l) :
    replaceAll (openBr :: t) rep l = l := by
  have h2 := replaceAll_skip t rep l [] h
  simpa [replaceAll_nil] using h2

theorem replaceAll_at (c0 : Char) (t rep post : Str) :
    replaceAll (c0 :: t) rep ((c0 :: t) ++ post) = rep ++ replaceAll (c0 :: t) rep post := by
  have hpos : (c0 :: t).length ≠ 0 ∧ isPre (c0 :: t) (c0 :: (t ++ post)) = true := by
    constructor
    · simp
    · have h2 := isPre_append_self (c0 :: t) post
      simpa using h2
  rw [List.cons_append, replaceAll_cons_pos _ _ _ _ hpos]
  congr 1
  have hl : (c0 :: t).length - 1 = t.length := by simp
  rw [hl, List.drop_left]

theorem replaceAll_single (t rep pre post : Str) (hpre : openBr ∉ pre) (hpost : openBr ∉ post) :
    replaceAll (openBr :: t) rep (pre ++ ((openBr :: t) ++ post)) = pre ++ (rep ++ post) := by
  rw [replaceAll_skip t rep pre _ hpre, replaceAll_at openBr t rep post,
    replaceAll_id_of_notMem t rep post hpost]

theorem replaceAll_id_of_not_contains (pat rep : Str) :
    ∀ s, containsPat pat s = false → replaceAll pat rep s = s := by
  intro s
  induction s with
  | nil => intro _; rfl
  | cons c rest ih =>
    intro h
    simp only [containsPat, Bool.or_eq_false_iff] at h
    rw [replaceAll_cons_neg _ _ _ _ (fun hc => by rw [h.1] at hc; exact absurd hc.2 (by simp)),
      ih h.2]

/-! ### Helper lemmas about the placeholder scanner and the renderer -/

theorem splitAtClose_decomp : ∀ name post : Str, closeBr ∉ name →
    splitAtClose (name ++ closeBr :: closeBr :: post) = some (name, post) := by
  intro name
  induction name with
  | nil =>
    intro post _
    simp [splitAtClose]
  | cons a name' ih =>
    intro post h
    have ha : a ≠ closeBr := fun hh => h (hh ▸ List.mem_cons_self a name')
    simp only [List.cons_append, splitAtClose, List.append_eq]
    rw [if_neg (by rintro ⟨h1, -⟩; exact ha h1)]
    rw [ih post (fun hh => h (List.mem_cons_of_mem _ hh))]
    rfl

theorem findPlaceholder_decomp : ∀ pre name post : Str, openBr ∉ pre → closeBr ∉ name →
    findPlaceholder (pre ++ openBr :: openBr :: (name ++ closeBr :: closeBr :: post)) =
      some (pre, name, post) := by
  intro pre
  induction pre with
  | nil =>
    intro name post _ hn
    simp [findPlaceholder, splitAtClose_decomp name post hn]
  | cons c pre' ih =>
    intro name post hp hn
    have hc : c ≠ openBr := fun hh => hp (hh ▸ List.mem_cons_self _ _)
    simp only [List.cons_append, findPlaceholder, List.append_eq]
    rw [if_neg (by rintro ⟨h1, -⟩; exact hc h1)]
    rw [ih name post (fun hh => hp (List.mem_cons_of_mem _ hh)) hn]
    rfl

theorem renderLine_single (vars : Vars) (pre name post v : Str)
    (hpre : openBr ∉ pre) (hn2 : closeBr ∉ name) (hpost : openBr ∉ post)
    (hv : lookupA vars name = some v) :
    renderLine vars (pre ++ openBr :: openBr :: (name ++ closeBr :: closeBr :: post)) =
      .ok (pre ++ v ++ post) := by
  simp only [renderLine, findPlaceholder_decomp pre name post hpre hn2, hv]
  have harr : pre ++ openBr :: openBr :: (name ++ closeBr :: closeBr :: post) =
      pre ++ ((openBr :: (openBr :: (name ++ [closeBr, closeBr]))) ++ post) := by
    simp
  rw [harr, replaceAll_single (openBr :: (name ++ [closeBr, closeBr])) v pre post hpre hpost]
  simp

theorem renderLine_noMatch (vars : Vars) (l : Str) (h : findPlaceholder l = none) :
    renderLine vars l = .ok l := by
  simp [renderLine, h]

theorem renderLine_err_shape (vars : Vars) (l : Str) (e : Err)
    (h : renderLine vars l = .error e) : ∃ k, e = .keyError k := by
  unfold renderLine at h
  split at h
  · simp at h
  · split at h
    · exact ⟨_, (Except.error.inj h).symm⟩
    · simp at h

theorem renderLine_badKey (vars : Vars) (l pre name post : Str)
    (hfp : findPlaceholder l = some (pre, name, post)) (hlk : lookupA vars name = none) :
    renderLine vars l = .error (.keyError name) := by
  simp [renderLine, hfp, hlk]

theorem renderAll_err_shape (vars : Vars) :
    ∀ lines e, renderAll vars lines = .error e → ∃ k, e = .keyError k := by
  intro lines
  induction lines with
  | nil => intro e h; simp [renderAll] at h
  | cons l ls ih =>
    intro e h
    simp only [renderAll] at h
    cases hR : renderLine vars l with
    | error e1 =>
      rw [hR] at h
      have h2 : Except.error (ε := Err) (α := Str) e1 = .error e := h
      cases h2
      exact renderLine_err_shape vars l _ hR
    | ok r =>
      rw [hR] at h
      cases hA : renderAll vars ls with
      | error e2 =>
        rw [hA] at h
        have h2 : Except.error (ε := Err) (α := Str) e2 = .error e := h
        cases h2
        exact ih _ hA
      | ok rest =>
        rw [hA] at h
        simp at h

theorem renderAll_err_of_bad (vars : Vars) :
    ∀ lines : List Str,
      (∃ l ∈ lines, ∃ pre name post, findPlaceholder l = some (pre, name, post) ∧
        lookupA vars name = none) →
      ∃ k, renderAll vars lines = .error (.keyError k) := by
  intro lines
  induction lines with
  | nil =>
    rintro ⟨l, hl, -⟩
    exact absurd hl (List.not_mem_nil l)
  | cons l ls ih =>
    rintro ⟨l', hl', pre, name, post, hfp, hlk⟩
    rcases List.mem_cons.mp hl' with h | h
    · subst h
      exact ⟨name, by simp [renderAll, renderLine_badKey vars l' pre name post hfp hlk]⟩
    · cases hR : renderLine vars l with
      | error e =>
        obtain ⟨k, hk⟩ := renderLine_err_shape vars l e hR
        exact ⟨k, by simp [renderAll, hR, hk]⟩
      | ok r =>
        obtain ⟨k, hk⟩ := ih ⟨l', h, pre, name, post, hfp, hlk⟩
        exact ⟨k, by simp [renderAll, hR, hk]⟩

/-! ### Helper lemmas about World operations -/

theorem lookupFile_write_self (w : World) (p c : Str) :
    lookupFile (writeFile w p c) p = some c := by
  simp [lookupFile, writeFile, lookupA]

theorem lookupFile_write_ne (w : World) (p c q : Str) (h : p ≠ q) :
    lookupFile (writeFile w p c) q = lookupFile w q := by
  simp [lookupFile, writeFile, lookupA, h]

theorem lookupFile_addLog (w : World) (m q : Str) : lookupFile (addLog w m) q = lookupFile w q := rfl

/-! ### The pipeline never raises the spec's ThemeApplicationError -/

theorem insert_variables_notTAE (cfg : ShellCfg) (vars : Vars) (w : World) (ew : Err × World)
    (h : insert_variables cfg vars w = .error ew) : isThemeApplicationError ew.1 = false := by
  simp only [insert_variables] at h
  split at h
  · injection h with h3; subst h3; rfl
  · split at h
    · rename_i e heq2
      injection h with h3; subst h3
      obtain ⟨k, hk⟩ := renderAll_err_shape vars _ _ heq2
      rw [hk]; rfl
    · simp at h

theorem ensureDir_notTAE (env : Env) (w : World) (d : Str) (ew : Err × World)
    (h : ensureDir env w d = .error ew) : isThemeApplicationError ew.1 = false := by
  simp only [ensureDir] at h
  split at h
  · simp at h
  · split at h
    · injection h with h3; subst h3; rfl
    · simp at h

set_option maxHeartbeats 1000000 in
theorem recolor_assets_notTAE (cfg : ShellCfg) (env : Env) (vars : Vars) (w : World) (ew : Err × World)
    (h : recolor_assets cfg env vars w = .error ew) : isThemeApplicationError ew.1 = false := by
  simp only [recolor_assets] at h
  split at h
  · injection h with h3; subst h3; rfl
  · split at h
    · injection h with h3; subst h3; rfl
    · split at h
      · injection h with h3; subst h3; rfl
      · split at h
        · rename_i ew1 heq
          injection h with h3; subst h3
          exact ensureDir_notTAE _ _ _ _ heq
        · split at h
          · injection h with h3; subst h3; rfl
          · split at h
            · injection h with h3; subst h3; rfl
            · simp at h

theorem create_theme_notTAE (cfg : ShellCfg) (env : Env) (vars : Vars) (w : World) (ew : Err × World)
    (h : create_theme cfg env vars w = .error ew) : isThemeApplicationError ew.1 = false := by
  simp only [create_theme] at h
  split at h
  · rename_i ew1 heq
    injection h with h3; subst h3
    exact insert_variables_notTAE _ _ _ _ heq
  · split at h
    · rename_i ew1 heq
      injection h with h3; subst h3
      exact ensureDir_notTAE _ _ _ _ heq
    · split at h
      · rename_i ew1 heq
        injection h with h3; subst h3
        exact recolor_assets_notTAE _ _ _ _ _ heq
      · simp at h

/-! ### The claims -/

/-- Claim C1: for every colors template line containing exactly one
placeholder (a double-brace name whose surroundings are brace-free) whose
name is a key of the active variable mapping, the per-line body of
insert_variables emits that line with the placeholder replaced by the
mapped value; every line in which the scanner finds no placeholder is
emitted byte-identical; and in particular the concrete line of the spec
renders to color: #3584e4; under the mapping sending accent_bg_color to
#3584e4. -/
theorem spec_c1 (vars : Vars) (pre name post v : Str)
    (hpre : openBr ∉ pre) (hn1 : openBr ∉ name) (hn2 : closeBr ∉ name) (hpost : openBr ∉ post)
    (hv : lookupA vars name = some v) :
    renderLine vars (pre ++ openBr :: openBr :: (name ++ closeBr :: closeBr :: post)) =
      .ok (pre ++ v ++ post) ∧
    (∀ l, findPlaceholder l = none → renderLine vars l = .ok l) ∧
    renderLine [("accent_bg_color".toList, "#3584e4".toList)]
        ("color: \x7b\x7baccent_bg_color\x7d\x7d;".toList) =
      .ok ("color: #3584e4;".toList) := by
  refine ⟨renderLine_single vars pre name post v hpre hn2 hpost hv,
    fun l hl => renderLine_noMatch vars l hl, ?_⟩
  rfl

theorem spec_c1_witness :
    renderLine [("accent_bg_color".toList, "#3584e4".toList)]
        (("color: ".toList) ++ openBr :: openBr ::
          (("accent_bg_color".toList) ++ closeBr :: closeBr :: (";".toList))) =
      .ok (("color: ".toList) ++ ("#3584e4".toList) ++ (";".toList)) ∧
    (∀ l, findPlaceholder l = none →
      renderLine [("accent_bg_color".toList, "#3584e4".toList)] l = .ok l) ∧
    renderLine [("accent_bg_color".toList, "#3584e4".toList)]
        ("color: \x7b\x7baccent_bg_color\x7d\x7d;".toList) =
      .ok ("color: #3584e4;".toList) :=
  spec_c1 [("accent_bg_color".toList, "#3584e4".toList)]
    ("color: ".toList) ("accent_bg_color".toList) (";".toList) ("#3584e4".toList)
    (by decide) (by decide) (by decide) (by decide) (by decide)

/-- Claim C2: whenever the colors template contains a line on which the
scanner finds a placeholder whose name is absent from the active mapping,
insert_variables fails with the missing-variable lookup error (Python's
KeyError) and returns the World unchanged: in particular nothing is
written to the colors source partial, whose write only happens after the
whole loop has succeeded. -/
theorem spec_c2 (cfg : ShellCfg) (vars : Vars) (w : World) (content : Str)
    (hc : lookupFile w (colors_template cfg) = some content)
    (hbad : ∃ l ∈ splitFL content, ∃ pre name post,
      findPlaceholder l = some (pre, name, post) ∧ lookupA vars name = none) :
    ∃ badKey, insert_variables cfg vars w = .error (.keyError badKey, w) := by
  obtain ⟨k, hk⟩ := renderAll_err_of_bad vars (splitFL content) hbad
  exact ⟨k, by simp [insert_variables, hc, hk]⟩

theorem spec_c2_witness :
    ∃ badKey, insert_variables (cfgOf 42) [] wC2 = .error (.keyError badKey, wC2) :=
  spec_c2 (cfgOf 42) [] wC2 ("color: \x7b\x7bmissing_key\x7d\x7d;\n".toList) rfl
    ⟨("color: \x7b\x7bmissing_key\x7d\x7d;\n".toList), by decide,
      ("color: ".toList), ("missing_key".toList), (";\n".toList), by decide, rfl⟩

/-- Claim C3, counterexample: on a run whose directory creation fails with
a GLib error, apply_theme re-raises exactly that GLib error, which is not
a ThemeApplicationError wrapping the cause; no such wrapper exists in the
code. -/
theorem spec_c3_counterexample :
    resultErr (apply_theme (cfgOf 42) envC3 [] wC3) =
      some (Err.gError ("make_directory_with_parents".toList)) ∧
    isThemeApplicationError (Err.gError ("make_directory_with_parents".toList)) = false := by
  exact ⟨rfl, rfl⟩

/-- Claim C3, as amended: every failure of the generation pipeline is
re-raised by apply_theme unchanged, never wrapped in the spec's
ThemeApplicationError; failures surfacing as GLib errors are additionally
logged by apply_theme, all other failures propagate through it untouched
and unlogged. -/
theorem spec_c3 (cfg : ShellCfg) (env : Env) (vars : Vars) (w : World) (e : Err) (w1 : World)
    (h : create_theme cfg env vars w = .error (e, w1)) :
    isThemeApplicationError e = false ∧
    (isGError e = true → apply_theme cfg env vars w = .error (e, addLog w1 applyFailMsg)) ∧
    (isGError e = false → apply_theme cfg env vars w = .error (e, w1)) := by
  refine ⟨create_theme_notTAE cfg env vars w (e, w1) h, ?_, ?_⟩
  · intro hg
    simp [apply_theme, h, hg]
  · intro hg
    simp [apply_theme, h, hg]

theorem spec_c3_witness :
    isThemeApplicationError (Err.gError ("make_directory_with_parents".toList)) = false ∧
    (isGError (Err.gError ("make_directory_with_parents".toList)) = true →
      apply_theme (cfgOf 42) envC3 [] wC3 =
        .error (Err.gError ("make_directory_with_parents".toList), addLog wC3mid applyFailMsg)) ∧
    (isGError (Err.gError ("make_directory_with_parents".toList)) = false →
      apply_theme (cfgOf 42) envC3 [] wC3 =
        .error (Err.gError ("make_directory_with_parents".toList), wC3mid)) :=
  spec_c3 (cfgOf 42) envC3 [] wC3 (Err.gError ("make_directory_with_parents".toList)) wC3mid rfl

/-- Claim C5: the code is wrong on the branch for legacy versions.  For a
detected version string beginning with the digit 3, the source intends to
raise the unsupported-version Exception, but the raise statement's
f-string names shell_version, which is not defined in
detect_shell_version (the local is shell_ver), so the call fails with
NameError instead; the embedding evaluates that behaviour at the failing
input 3.38. -/
theorem spec_c5 :
    detect_shell_version ("3.38".toList) = .error (.nameError ("shell_version".toList)) := rfl

/-- Claim C6, counterexample: the explicitly supplied version 0 is not in
the supported set, yet construction does not fail with the
unsupported-version exception: Python's truthiness test treats 0 as an
omitted argument and auto-detection runs instead (here detecting 42.1 and
succeeding). -/
theorem spec_c6_counterexample :
    initShellTheme (some 0) ("42.1".toList) = .ok (cfgOf 42) ∧ (0 : Int) ∉ shell_versions := by
  exact ⟨rfl, by decide⟩

/-- Claim C6, as amended: for every explicitly supplied nonzero shell
version outside the supported set, construction fails with the
unsupported-version exception; an explicit 0 is falsy in Python and
triggers auto-detection instead. -/
theorem spec_c6 (v : Int) (detected : Str) (hnz : v ≠ 0) (hns : v ∉ shell_versions) :
    initShellTheme (some v) detected =
      .error (.exception (("GNOME Shell version ".toList) ++ (toString v).toList ++
        (" not in range [42, 43]".toList))) := by
  simp [initShellTheme, hnz, hns]

theorem spec_c6_witness :
    initShellTheme (some 41) [] =
      .error (.exception (("GNOME Shell version ".toList) ++ (toString (41 : Int)).toList ++
        (" not in range [42, 43]".toList))) :=
  spec_c6 41 [] (by decide) (by decide)

/-- Claim C7, counterexample: recoloring is not idempotent for every
mapping.  With accent_bg_color set to #3584e4e4, recoloring the default
toggle-on fill once yields fill:#3584e4e4, which still contains the
literal default fill string, so a second run rewrites the content again. -/
theorem spec_c7_counterexample :
    recolorSvg ("#3584e4e4".toList) (recolorSvg ("#3584e4e4".toList) ("fill:#3584e4".toList)) ≠
      recolorSvg ("#3584e4e4".toList) ("fill:#3584e4".toList) := by decide

/-- Claim C7, as amended: recoloring replaces every occurrence of the
literal default fill string with fill: followed by the accent value (in
particular it maps the default fill string itself to the recoloured one),
and a second run leaves the content unchanged provided the first run's
output no longer contains the literal default fill string, which ordinary
accent values guarantee but adversarial ones (see the counterexample) do
not. -/
theorem spec_c7 (accent svg : Str)
    (h : containsPat fillDefault (recolorSvg accent svg) = false) :
    recolorSvg accent (recolorSvg accent svg) = recolorSvg accent svg ∧
    recolorSvg accent fillDefault = ("fill:".toList) ++ accent := by
  constructor
  · exact replaceAll_id_of_not_contains _ _ _ h
  · have h2 := replaceAll_at 'f' ("ill:#3584e4".toList) (("fill:".toList) ++ accent) []
    simp only [List.append_nil, replaceAll_nil] at h2
    exact h2

theorem spec_c7_witness :
    containsPat fillDefault (recolorSvg ("#ff0000".toList) ("a fill:#3584e4 b".toList)) = false ∧
    (recolorSvg ("#ff0000".toList) (recolorSvg ("#ff0000".toList) ("a fill:#3584e4 b".toList)) =
      recolorSvg ("#ff0000".toList) ("a fill:#3584e4 b".toList) ∧
     recolorSvg ("#ff0000".toList) fillDefault = ("fill:".toList) ++ ("#ff0000".toList)) :=
  ⟨by decide, spec_c7 ("#ff0000".toList) ("a fill:#3584e4 b".toList) (by decide)⟩

/-- Claim C8: set_shell_theme appends exactly two writes to the
settings-store trace, first the empty string and then the fixed theme
identifier, both on the theme-name key; consequently the key's value after
the call is the fixed theme identifier. -/
theorem spec_c8 (w : World) :
    (set_shell_theme w).settingsWrites =
      w.settingsWrites ++ [(nameKey, []), (nameKey, themeName)] ∧
    currentSetting (set_shell_theme w) nameKey = some themeName := by
  constructor
  · simp [set_shell_theme, set_string]
  · simp [currentSetting, set_shell_theme, set_string, lookupA]

theorem spec_c8_witness :
    (set_shell_theme wEmpty).settingsWrites =
      wEmpty.settingsWrites ++ [(nameKey, []), (nameKey, themeName)] ∧
    currentSetting (set_shell_theme wEmpty) nameKey = some themeName :=
  spec_c8 wEmpty

/-- Claim C9, counterexample: construction with explicit version 42
succeeds, but the output paths do not contain 42 as a path segment: the
per-user theme directory and its assets subdirectory are
version-independent. -/
theorem spec_c9_counterexample :
    initShellTheme (some 42) [] = .ok (cfgOf 42) ∧
    ("42".toList) ∉ segs output_dir ∧
    ("42".toList) ∉ segs assets_output := by
  exact ⟨rfl, by decide, by decide⟩

/-- Claim C9, as amended: for every supported version, construction with
that explicit version succeeds, and every derived template path and every
SCSS or SVG source path contains the version as a path segment; the
output paths are version-independent (see the counterexample). -/
theorem spec_c9 (v : Int) (detected : Str) (hv : v ∈ shell_versions) :
    initShellTheme (some v) detected = .ok (cfgOf v) ∧
    ∀ p ∈ [templates_dir (cfgOf v), source_dir (cfgOf v), main_template (cfgOf v),
        colors_template (cfgOf v), switches_template (cfgOf v), main_source (cfgOf v),
        colors_source (cfgOf v), switches_source (cfgOf v), switch_on_source (cfgOf v),
        switch_off_source (cfgOf v)],
      (toString v).toList ∈ segs p := by
  have hv2 : v = 42 ∨ v = 43 := by simpa [shell_versions] using hv
  rcases hv2 with h | h <;> subst h
  · exact ⟨rfl, by decide⟩
  · exact ⟨rfl, by decide⟩

theorem spec_c9_witness :
    initShellTheme (some 42) [] = .ok (cfgOf 42) ∧
    ∀ p ∈ [templates_dir (cfgOf 42), source_dir (cfgOf 42), main_template (cfgOf 42),
        colors_template (cfgOf 42), switches_template (cfgOf 42), main_source (cfgOf 42),
        colors_source (cfgOf 42), switches_source (cfgOf 42), switch_on_source (cfgOf 42),
        switch_off_source (cfgOf 42)],
      (toString (42 : Int)).toList ∈ segs p :=
  spec_c9 42 [] (by decide)

/-- Claim C10: recolor_assets looks the accent key up before touching any
file, so on a mapping lacking accent_bg_color it fails with the lookup
error and returns the World unchanged: the switches stylesheet, both SVG
sources, the assets directory and everything else are exactly as before
the call. -/
theorem spec_c10 (cfg : ShellCfg) (env : Env) (vars : Vars) (w : World)
    (h : lookupA vars accentKey = none) :
    recolor_assets cfg env vars w = .error (.keyError accentKey, w) := by
  simp [recolor_assets, h]

theorem spec_c10_witness :
    recolor_assets (cfgOf 42) ⟨false, false⟩ [] wEmpty = .error (.keyError accentKey, wEmpty) :=
  spec_c10 (cfgOf 42) ⟨false, false⟩ [] wEmpty rfl

/-- The two asset output paths are distinct. -/
theorem assetsOnOff_ne :
    osJoin assets_output ("toggle-off.svg".toList) ≠ osJoin assets_output ("toggle-on.svg".toList) := by
  decide

set_option maxHeartbeats 2000000 in
/-- Core of claim C4: on any run in which launching the sassc subprocess
fails, given the template renders, the needed directories exist, the
accent key is mapped and the input files are present (stated for any
configuration whose derived paths are pairwise distinct where the pipeline
relies on it), create_theme succeeds, logs the compile failure, still
performs the asset recoloring, and still activates the theme. -/
theorem create_theme_launch_fail (cfg : ShellCfg) (b : Bool) (vars : Vars) (w : World)
    (tpl rendered sw svg off acc : Str)
    (htpl : lookupFile w (colors_template cfg) = some tpl)
    (hrend : renderAll vars (splitFL tpl) = .ok rendered)
    (hod : output_dir ∈ w.dirs)
    (had : assets_output ∈ w.dirs)
    (hacc : lookupA vars accentKey = some acc)
    (hsw : lookupFile w (switches_template cfg) = some sw)
    (hsvg : lookupFile w (switch_on_source cfg) = some svg)
    (hoff : lookupFile w (switch_off_source cfg) = some off)
    (d1 : colors_source cfg ≠ switches_template cfg)
    (d2 : colors_source cfg ≠ switch_on_source cfg)
    (d3 : switches_source cfg ≠ switch_on_source cfg)
    (d4 : colors_source cfg ≠ switch_off_source cfg)
    (d5 : switches_source cfg ≠ switch_off_source cfg)
    (d6 : switch_on_source cfg ≠ switch_off_source cfg)
    (d7 : osJoin assets_output ("toggle-on.svg".toList) ≠ switch_off_source cfg) :
    ∃ w', create_theme cfg ⟨b, true⟩ vars w = .ok w' ∧
      sassFailMsg ∈ w'.log ∧
      w'.settingsWrites = w.settingsWrites ++ [(nameKey, []), (nameKey, themeName)] ∧
      lookupFile w' (osJoin assets_output ("toggle-on.svg".toList)) = some (recolorSvg acc svg) := by
  have hIV : insert_variables cfg vars w = .ok (writeFile w (colors_source cfg) rendered) := by
    simp [insert_variables, htpl, hrend]
  have hED1 : ensureDir ⟨b, true⟩ (writeFile w (colors_source cfg) rendered) output_dir =
      .ok (writeFile w (colors_source cfg) rendered) := by
    simp [ensureDir, writeFile, hod]
  have hCS : compile_sass ⟨b, true⟩ (osJoin (source_dir cfg) ("gnome-shell.scss".toList))
      (osJoin output_dir ("gnome-shell.css".toList)) (writeFile w (colors_source cfg) rendered) =
      addLog (writeFile w (colors_source cfg) rendered) sassFailMsg := by
    simp [compile_sass]
  have e1 : lookupFile (addLog (writeFile w (colors_source cfg) rendered) sassFailMsg)
      (switches_template cfg) = some sw := by
    rw [lookupFile_addLog, lookupFile_write_ne _ _ _ _ d1]
    exact hsw
  have e2 : lookupFile (writeFile (addLog (writeFile w (colors_source cfg) rendered) sassFailMsg)
      (switches_source cfg) sw) (switch_on_source cfg) = some svg := by
    rw [lookupFile_write_ne _ _ _ _ d3, lookupFile_addLog, lookupFile_write_ne _ _ _ _ d2]
    exact hsvg
  have e3 : ensureDir ⟨b, true⟩
      (writeFile (writeFile (addLog (writeFile w (colors_source cfg) rendered) sassFailMsg)
        (switches_source cfg) sw) (switch_on_source cfg) (recolorSvg acc svg)) assets_output =
      .ok (writeFile (writeFile (addLog (writeFile w (colors_source cfg) rendered) sassFailMsg)
        (switches_source cfg) sw) (switch_on_source cfg) (recolorSvg acc svg)) := by
    simp [ensureDir, writeFile, addLog, had]
  have e4 : lookupFile
      (writeFile (writeFile (addLog (writeFile w (colors_source cfg) rendered) sassFailMsg)
        (switches_source cfg) sw) (switch_on_source cfg) (recolorSvg acc svg))
      (switch_on_source cfg) = some (recolorSvg acc svg) := lookupFile_write_self _ _ _
  have e5 : lookupFile
      (writeFile (writeFile (writeFile (addLog (writeFile w (colors_source cfg) rendered) sassFailMsg)
          (switches_source cfg) sw) (switch_on_source cfg) (recolorSvg acc svg))
        (osJoin assets_output ("toggle-on.svg".toList)) (recolorSvg acc svg))
      (switch_off_source cfg) = some off := by
    rw [lookupFile_write_ne _ _ _ _ d7, lookupFile_write_ne _ _ _ _ d6,
      lookupFile_write_ne _ _ _ _ d5, lookupFile_addLog, lookupFile_write_ne _ _ _ _ d4]
    exact hoff
  refine ⟨set_shell_theme (writeFile
      (writeFile (writeFile (writeFile (addLog (writeFile w (colors_source cfg) rendered) sassFailMsg)
          (switches_source cfg) sw) (switch_on_source cfg) (recolorSvg acc svg))
        (osJoin assets_output ("toggle-on.svg".toList)) (recolorSvg acc svg))
      (osJoin assets_output ("toggle-off.svg".toList)) off), ?_, ?_, ?_, ?_⟩
  · simp only [create_theme, hIV, hED1, hCS, recolor_assets, hacc, e1, e2, e3, e4, e5]
  · simp [set_shell_theme, set_string, writeFile, addLog]
  · simp [set_shell_theme, set_string, writeFile, addLog]
  · have hfiles : lookupFile (set_shell_theme (writeFile
        (writeFile (writeFile (writeFile (addLog (writeFile w (colors_source cfg) rendered) sassFailMsg)
            (switches_source cfg) sw) (switch_on_source cfg) (recolorSvg acc svg))
          (osJoin assets_output ("toggle-on.svg".toList)) (recolorSvg acc svg))
        (osJoin assets_output ("toggle-off.svg".toList)) off))
        (osJoin assets_output ("toggle-on.svg".toList)) =
      lookupFile (writeFile
        (writeFile (writeFile (writeFile (addLog (writeFile w (colors_source cfg) rendered) sassFailMsg)
            (switches_source cfg) sw) (switch_on_source cfg) (recolorSvg acc svg))
          (osJoin assets_output ("toggle-on.svg".toList)) (recolorSvg acc svg))
        (osJoin assets_output ("toggle-off.svg".toList)) off)
        (osJoin assets_output ("toggle-on.svg".toList)) := rfl
    rw [hfiles, lookupFile_write_ne _ _ _ _ assetsOnOff_ne, lookupFile_write_self]

/-- Claim C4: for every run of the pipeline at a supported version in
which launching the external SCSS compiler subprocess fails, compile_sass
logs the failure and returns without raising, and the pipeline continues:
the asset-recoloring step still writes the recolored toggle-on asset and
the theme-activation step still performs its two settings writes. -/
theorem spec_c4 (v : Int) (b : Bool) (vars : Vars) (w : World)
    (tpl rendered sw svg off acc : Str)
    (hv : v ∈ shell_versions)
    (htpl : lookupFile w (colors_template (cfgOf v)) = some tpl)
    (hrend : renderAll vars (splitFL tpl) = .ok rendered)
    (hod : output_dir ∈ w.dirs)
    (had : assets_output ∈ w.dirs)
    (hacc : lookupA vars accentKey = some acc)
    (hsw : lookupFile w (switches_template (cfgOf v)) = some sw)
    (hsvg : lookupFile w (switch_on_source (cfgOf v)) = some svg)
    (hoff : lookupFile w (switch_off_source (cfgOf v)) = some off) :
    ∃ w', create_theme (cfgOf v) ⟨b, true⟩ vars w = .ok w' ∧
      sassFailMsg ∈ w'.log ∧
      w'.settingsWrites = w.settingsWrites ++ [(nameKey, []), (nameKey, themeName)] ∧
      lookupFile w' (osJoin assets_output ("toggle-on.svg".toList)) = some (recolorSvg acc svg) := by
  have hv2 : v = 42 ∨ v = 43 := by simpa [shell_versions] using hv
  rcases hv2 with h | h <;> subst h <;>
    exact create_theme_launch_fail _ b vars w tpl rendered sw svg off acc htpl hrend hod had
      hacc hsw hsvg hoff
      (by decide) (by decide) (by decide) (by decide) (by decide) (by decide) (by decide)

theorem spec_c4_witness :
    ∃ w', create_theme (cfgOf 42) ⟨false, true⟩ varsC4 wC4 = .ok w' ∧
      sassFailMsg ∈ w'.log ∧
      w'.settingsWrites = wC4.settingsWrites ++ [(nameKey, []), (nameKey, themeName)] ∧
      lookupFile w' (osJoin assets_output ("toggle-on.svg".toList)) =
        some (recolorSvg ("#ff0000".toList) ("fill:#3584e4".toList)) :=
  spec_c4 42 false varsC4 wC4 ("color: \x7b\x7baccent_bg_color\x7d\x7d;\n".toList)
    ("color: #ff0000;\n".toList) ("switches".toList) ("fill:#3584e4".toList) ("off".toList)
    ("#ff0000".toList)
    (by decide) rfl rfl (by decide) (by decide) rfl rfl rfl rfl
